import Mathlib

/-!
Verification of the Sage EAS compliance-report engine
(`services/processingService.ts`).

The development shallowly embeds the business logic of the source file:
the device date parser (`parseSageDate`), the week-bucket helper
(`getWeekStartDate`), the display formatters, the entry classifier
(`parseSageEntry`), the RMT 60-minute compliance matcher
(`checkRmtCompliance`), the per-month report-grid builder
(`generateMonthSheet`) and the month-grouping driver (`processXMLFile`).

JavaScript `Date` objects (a host builtin, not repository code) are
modelled by a record of local wall-clock calendar fields together with
the ECMAScript time-value arithmetic: `getTime` is
`MakeDate(MakeDay(...), MakeTime(...))`, day numbers count from the epoch
1970-01-01, and the proleptic Gregorian civil calendar links the two.
The repository performs no timezone conversion (device local time only),
so local time equals the time value throughout, exactly as the spec's
non-goals state.
-/

/-- Days from the start of a 400-year era to the start of (March-based)
year-of-era `yoe`, per the proleptic Gregorian leap rule. -/
def dayFromYoe (yoe : Int) : Int := 365 * yoe + yoe / 4 - yoe / 100

/-- Convert an epoch day number (1970-01-01 = day 0) to the Gregorian
civil triple (year, month 1..12, day 1..31).  This realises ECMAScript's
`YearFromTime`/`MonthFromTime`/`DateFromTime`, which are specified
declaratively (the year is the largest `y` whose first day is at or
before the instant); the year-of-era is located by a first estimate
`doe / 366` corrected by at most one. -/
def civilFromDays (z : Int) : Int × Int × Int :=
  let z' := z + 719468
  let era := z' / 146097
  let doe := z' - era * 146097
  let e1 := doe / 366
  let yoe := if e1 < 399 ∧ dayFromYoe (e1 + 1) ≤ doe then e1 + 1 else e1
  let doy := doe - dayFromYoe yoe
  let mp := (5 * doy + 2) / 153
  let d := doy - (153 * mp + 2) / 5 + 1
  let m := if mp < 10 then mp + 3 else mp - 9
  (yoe + era * 400 + (if m ≤ 2 then 1 else 0), m, d)

/-- Convert a Gregorian civil triple to its epoch day number
(1970-01-01 = day 0).  This is ECMAScript's `MakeDay` for the proleptic
Gregorian calendar, in the standard era/year-of-era decomposition. -/
def daysFromCivil (y m d : Int) : Int :=
  let y' := y - (if m ≤ 2 then 1 else 0)
  let era := y' / 400
  let yoe := y' - era * 400
  let doy := (153 * (m + (if m > 2 then -3 else 9)) + 2) / 5 + d - 1
  let doe := yoe * 365 + yoe / 4 - yoe / 100 + doy
  era * 146097 + doe - 719468

/-- Model of a JavaScript `Date` holding a local wall-clock instant.
The repository manipulates device local time with no timezone
conversion, so the calendar fields determine the ECMAScript time value
directly. -/
structure JSDate where
  year : Int
  month : Int
  day : Int
  hour : Int
  minute : Int
  second : Int
deriving DecidableEq, Repr

/-- ECMAScript leap-year predicate (`DaysInYear`). -/
def isLeap (y : Int) : Bool := (y % 4 == 0 && y % 100 != 0) || (y % 400 == 0)

/-- Number of days in a civil month. -/
def daysInMonth (y m : Int) : Int :=
  if m = 2 then (if isLeap y then 29 else 28)
  else if m = 4 ∨ m = 6 ∨ m = 9 ∨ m = 11 then 30 else 31

/-- Calendar fields that denote a real instant (what `new Date(...)`
produces on the success path). -/
def JSDate.Valid (t : JSDate) : Prop :=
  1 ≤ t.month ∧ t.month ≤ 12 ∧ 1 ≤ t.day ∧ t.day ≤ daysInMonth t.year t.month ∧
  0 ≤ t.hour ∧ t.hour ≤ 23 ∧ 0 ≤ t.minute ∧ t.minute ≤ 59 ∧
  0 ≤ t.second ∧ t.second ≤ 59

instance (t : JSDate) : Decidable t.Valid := by
  unfold JSDate.Valid
  infer_instance

/-- Epoch day number of the date (ECMAScript `Day(t)`). -/
def JSDate.days (t : JSDate) : Int := daysFromCivil t.year t.month t.day

/-- ECMAScript time value in milliseconds
(`MakeDate(MakeDay(...), MakeTime(...))`, local = UTC here). -/
def JSDate.getTime (t : JSDate) : Int :=
  t.days * 86400000 + t.hour * 3600000 + t.minute * 60000 + t.second * 1000

/-- Model of `Date.prototype.getDay` — weekday, 0 = Sunday (ECMAScript
`WeekDay(t) = (Day(t) + 4) modulo 7`). -/
def JSDate.getDay (t : JSDate) : Int := (t.days + 4) % 7

/-- JavaScript `getMonth` is 0-based. -/
def JSDate.getMonth (t : JSDate) : Int := t.month - 1

def JSDate.getDate (t : JSDate) : Int := t.day

def JSDate.getFullYear (t : JSDate) : Int := t.year

/-- Model of `new Date(ms)`: decompose a time value into calendar
fields (ECMAScript `YearFromTime` .. `SecFromTime`). -/
def jsDateFromTime (ms : Int) : JSDate :=
  let c := civilFromDays (ms / 86400000)
  { year := c.1, month := c.2.1, day := c.2.2
    hour := (ms / 3600000) % 24
    minute := (ms / 60000) % 60
    second := (ms / 1000) % 60 }

/-- Shift a date by `n` whole days, keeping the time of day: the net
effect of JavaScript `d.setDate(d.getDate() + n)` (ECMAScript `MakeDay`
accepts out-of-range day-of-month and rolls it over). -/
def JSDate.addDays (t : JSDate) (n : Int) : JSDate :=
  let c := civilFromDays (t.days + n)
  { t with year := c.1, month := c.2.1, day := c.2.2 }

/-- Source `getWeekStartDate` (lines 178–185): copy the date, shift it
back by `getDay()` days (the net effect of
`d.setDate(d.getDate() - d.getDay())`), then zero the time of day
(`d.setHours(0, 0, 0, 0)`), giving the most recent Sunday midnight. -/
def getWeekStartDate (date : JSDate) : JSDate :=
  let d := date.days - date.getDay
  let c := civilFromDays d
  { year := c.1, month := c.2.1, day := c.2.2, hour := 0, minute := 0, second := 0 }

/-! ### String helpers (JavaScript string builtins used by the source) -/

/-- Whether `pat` occurs at the start of `l` (character-exact, case-sensitive). -/
def charsLeadWith (pat : List Char) : List Char → Bool
  | l => match pat, l with
    | [], _ => true
    | _ :: _, [] => false
    | p :: ps, c :: cs => p == c && charsLeadWith ps cs

/-- Whether `pat` occurs somewhere in `l`. -/
def charsOccur (pat : List Char) : List Char → Bool
  | [] => pat.isEmpty
  | c :: cs => charsLeadWith pat (c :: cs) || charsOccur pat cs

/-- JavaScript `s.includes(pat)` (case-sensitive substring search). -/
def jsIncludes (s pat : String) : Bool := charsOccur pat.data s.data

/-- JavaScript `String.prototype.padStart(n, c)`. -/
def jsPadStart (s : String) (n : Nat) (c : Char) : String :=
  if s.length ≥ n then s
  else String.mk (List.replicate (n - s.length) c) ++ s

/-- Numeric value of a digit string (also JavaScript `parseInt` on the
all-digits strings this pipeline feeds it). -/
def digitsVal (l : List Char) : Int :=
  l.foldl (fun n c => 10 * n + ((c.toNat : Int) - 48)) 0

def strVal (s : String) : Int := digitsVal s.data

def allDigits (s : String) : Bool :=
  !s.data.isEmpty && s.data.all (fun c => c.isDigit)

/-- Split a character list on a separator character, JavaScript
`split` semantics (empty input gives one empty field, separators at the
ends give empty fields). -/
def splitChars (sep : Char) (acc : List Char) : List Char → List (List Char)
  | [] => [acc.reverse]
  | x :: xs =>
    if x == sep then acc.reverse :: splitChars sep [] xs
    else splitChars sep (x :: acc) xs

/-- JavaScript `s.split(sep)` for a one-character separator (the only
kind this source uses: `' '`, `'/'`, `':'`). -/
def jsSplit (s : String) (sep : Char) : List String :=
  (splitChars sep [] s.data).map String.mk

/-- Time component `"HH:MM"` or `"HH:MM:SS"` of an ECMAScript Date Time
String (two-digit fields, hours 0..23, minutes/seconds 0..59). -/
def parseTimeStr (t : String) : Option (Int × Int × Int) :=
  match jsSplit t ':' with
  | [hh, mm] =>
    if hh.length = 2 ∧ allDigits hh = true ∧ mm.length = 2 ∧ allDigits mm = true ∧
       strVal hh ≤ 23 ∧ strVal mm ≤ 59
    then some (strVal hh, strVal mm, 0) else none
  | [hh, mm, ss] =>
    if hh.length = 2 ∧ allDigits hh = true ∧ mm.length = 2 ∧ allDigits mm = true ∧
       ss.length = 2 ∧ allDigits ss = true ∧ strVal hh ≤ 23 ∧ strVal mm ≤ 59 ∧ strVal ss ≤ 59
    then some (strVal hh, strVal mm, strVal ss) else none
  | _ => none

/-- Model of `new Date("YYYY-MM-DDTHH:MM:SS")` for the strings composed
by `parseSageDate`: the ECMAScript Date Time String Format path, which
yields a valid local-time date or an invalid date (`none`).  Strings
outside this grammar are modelled as invalid. -/
def jsNewDateISO (yearStr monthStr dayStr timeStr : String) : Option JSDate :=
  if yearStr.length = 4 ∧ allDigits yearStr = true ∧
     monthStr.length = 2 ∧ allDigits monthStr = true ∧
     dayStr.length = 2 ∧ allDigits dayStr = true then
    match parseTimeStr timeStr with
    | none => none
    | some (h, mi, s) =>
      let y := strVal yearStr
      let m := strVal monthStr
      let d := strVal dayStr
      if 1 ≤ m ∧ m ≤ 12 ∧ 1 ≤ d ∧ d ≤ daysInMonth y m then
        some { year := y, month := m, day := d, hour := h, minute := mi, second := s }
      else none
  else none

/-- Source `parseSageDate` (lines 156–176): split off the date part,
require exactly three `/`-separated segments, zero-pad month and day,
widen a two-digit year with a `"20"` century, default a missing time
part to midnight, and hand the composed ISO string to `new Date`;
`null` on any failure. -/
def parseSageDate (dateStr : String) : Option JSDate :=
  if dateStr = "" then none
  else
    let parts := jsSplit dateStr ' '
    let datePart := parts.headD ""
    let timePart := parts.get? 1
    if datePart = "" then none
    else
      match jsSplit datePart '/' with
      | [mStr, dStr, yStr] =>
        let month := jsPadStart mStr 2 '0'
        let day := jsPadStart dStr 2 '0'
        let year := if yStr.length = 2 then "20" ++ yStr else yStr
        let time :=
          match timePart with
          | none => "00:00:00"
          | some t => if t = "" then "00:00:00" else t
        jsNewDateISO year month day time
      | _ => none

/-- Source `formatDateShort` (lines 187–189):
`${d.getMonth() + 1}/${d.getDate()}/${d.getFullYear()}` — note: no
zero-padding. -/
def formatDateShort (d : JSDate) : String :=
  toString (d.getMonth + 1) ++ "/" ++ toString d.getDate ++ "/" ++ toString d.getFullYear

/-- Source `formatTime` (lines 191–193): the `"HH:MM:SS"` part of
`d.toTimeString()`, two-digit zero-padded fields. -/
def formatTime (d : JSDate) : String :=
  jsPadStart (toString d.hour) 2 '0' ++ ":" ++ jsPadStart (toString d.minute) 2 '0' ++ ":" ++
    jsPadStart (toString d.second) 2 '0'

/-- Source `formatWeekRange` (lines 195–199): `"MM/DD - MM/DD"`,
zero-padded, where the end of the range is the Sunday plus six days
(`end.setDate(sunday.getDate() + 6)`). -/
def formatWeekRange (sunday : JSDate) : String :=
  let e := sunday.addDays 6
  jsPadStart (toString (sunday.getMonth + 1)) 2 '0' ++ "/" ++
    jsPadStart (toString sunday.getDate) 2 '0' ++ " - " ++
    jsPadStart (toString (e.getMonth + 1)) 2 '0' ++ "/" ++
    jsPadStart (toString e.getDate) 2 '0'

/-! ### Entry classifier -/

/-- One raw `<entry>` record as decoded from the XML, with the four
fields the classifier reads (a missing field decodes to `""`, matching
`row.x || ''`). -/
structure RawRow where
  type : String
  details : String
  zczc : String
  date : String
deriving DecidableEq, Repr

/-- A classified log entry (source interface `SageEntry`). -/
structure SageEntry where
  type : String
  event : String
  date : JSDate
  source : String
  details : String
  originalSource : String
deriving DecidableEq, Repr

/-- The fixed monitor/CAP/station canonicalization table
(source `SOURCE_MAP`, lines 106–112). -/
def SOURCE_MAP (k : String) : Option String :=
  if k = "Monitor 1" then some "KBOI 670AM LP2+PEP Monitor 1"
  else if k = "Monitor 2" then some "KBSU 90.3FM LP1 Monitor 2"
  else if k = "Monitor 3" then some "WXK68 162.55 NWS Monitor 3"
  else if k = "CAP" then some "CAP-IPAWS"
  else if k = "Station" then some "Station Log"
  else none

/-- JavaScript `\s`-style whitespace on the characters the device log
can contain. -/
def isJsWhitespace (c : Char) : Bool :=
  c == ' ' || c == '\t' || c == '\n' || c == '\r' || c.toNat == 11 || c.toNat == 12

/-- Collapse every whitespace run to a single space
(`details.replace(/\s+/g, ' ')`). -/
def collapseGo (prevWs : Bool) : List Char → List Char
  | [] => []
  | c :: cs =>
    if isJsWhitespace c then
      (if prevWs then collapseGo true cs else ' ' :: collapseGo true cs)
    else c :: collapseGo false cs

def trimSpaces (l : List Char) : List Char :=
  ((l.dropWhile (fun c => c == ' ')).reverse.dropWhile (fun c => c == ' ')).reverse

/-- Model of `details.replace(/\s+/g, ' ').trim()`. -/
def normalizeDetails (s : String) : String :=
  String.mk (trimSpaces (collapseGo false s.data))

/-- The digit capture of `details.match(/Received on Monitor (\d+)/)`:
find the first occurrence of the literal followed by at least one
digit, and take the maximal digit run (the regex engine resumes the
search at the next position when no digit follows). -/
def monitorDigits : List Char → Option (List Char)
  | [] => none
  | c :: cs =>
    if charsLeadWith ("Received on Monitor ".data) (c :: cs) then
      let ds := ((c :: cs).drop 20).takeWhile (fun ch => ch.isDigit)
      if ds.isEmpty then monitorDigits cs else some ds
    else monitorDigits cs

/-- The event determination of `parseSageEntry` (source lines 211–213):
RWT when `-RWT-` occurs in the zczc code or `Required Weekly Test` in
the details, else RMT when `-RMT-` or `Required Monthly Test` occurs,
else empty (record dropped). -/
def eventOf (row : RawRow) : String :=
  if jsIncludes row.zczc "-RWT-" || jsIncludes row.details "Required Weekly Test" then "RWT"
  else if jsIncludes row.zczc "-RMT-" || jsIncludes row.details "Required Monthly Test" then "RMT"
  else ""

/-- Source `parseSageEntry` (lines 203–248): direction must be exactly
`Sent`/`Received`; the event marker must fire (`eventOf`); the date
must parse; then the source is canonicalized and the details
whitespace-collapsed. -/
def parseSageEntry (row : RawRow) : Option SageEntry :=
  let type := row.type
  if type ≠ "Sent" ∧ type ≠ "Received" then none
  else
    let details := row.details
    let event := eventOf row
    if event = "" then none
    else
      match parseSageDate row.date with
      | none => none
      | some dateObj =>
        let sourcePair : String × String :=
          if jsIncludes details "Received from CAP" then
            (if jsIncludes details "IPAWS" then "CAP-IPAWS IPAWS@DHS.GOV"
             else (SOURCE_MAP "CAP").getD "", "CAP")
          else if jsIncludes details "Received on Monitor" then
            match monitorDigits details.data with
            | some ds =>
              let monNum := String.mk ds
              ((SOURCE_MAP ("Monitor " ++ monNum)).getD ("Monitor " ++ monNum),
               "Monitor " ++ monNum)
            | none => ("Unknown", "Unknown")
          else if type = "Sent" then ("Station Log", "Station")
          else ("Unknown", "Unknown")
        some { type := type, event := event, date := dateObj, source := sourcePair.1,
               details := normalizeDetails details, originalSource := sourcePair.2 }

/-! ### Stable sorting (JavaScript `Array.prototype.sort` on a numeric
or lexicographic key; ECMAScript sort is stable) -/
def insSorted {α β : Type} [LinearOrder β] (k : α → β) (x : α) : List α → List α
  | [] => [x]
  | y :: ys => if k x ≤ k y then x :: y :: ys else y :: insSorted k x ys

/-- Stable insertion sort, ascending by key: the model of
`arr.sort((a, b) => key(a) - key(b))` and of the default lexicographic
`arr.sort()`. -/
def sortByKey {α β : Type} [LinearOrder β] (k : α → β) (l : List α) : List α :=
  l.foldr (insSorted k) []

/-- Code-unit lexicographic comparison of character lists (the default
JavaScript `Array.prototype.sort` string order; the labels sorted here
are ASCII). -/
def charsLe : List Char → List Char → Bool
  | [], _ => true
  | _ :: _, [] => false
  | a :: as, b :: bs =>
    if a.toNat < b.toNat then true
    else if b.toNat < a.toNat then false
    else charsLe as bs

/-- JavaScript default string ordering. -/
def jsStrLe (a b : String) : Bool := charsLe a.data b.data

/-- Insertion step for a `Bool`-valued ordering. -/
def insSortedB {α : Type} (le : α → α → Bool) (x : α) : List α → List α
  | [] => [x]
  | y :: ys => if le x y then x :: y :: ys else y :: insSortedB le x ys

/-- Stable insertion sort for a `Bool`-valued ordering (the model of
the default lexicographic `arr.sort()`). -/
def sortWithB {α : Type} (le : α → α → Bool) (l : List α) : List α :=
  l.foldr (insSortedB le) []

/-- Keep the elements not yet seen, in order (helper of
`dedupKeepFirst`). -/
def dedupSeen {α : Type} [DecidableEq α] (seen : List α) : List α → List α
  | [] => []
  | x :: xs => if x ∈ seen then dedupSeen seen xs else x :: dedupSeen (x :: seen) xs

/-- Keep the first occurrence of every element (the enumeration order
of a JavaScript `Set`). -/
def dedupKeepFirst {α : Type} [DecidableEq α] (l : List α) : List α := dedupSeen [] l

/-! ### Compliance matcher -/

/-- The result of `checkRmtCompliance` (source returns
`{ compliant, found }`). -/
structure RmtOutcome where
  compliant : Bool
  found : Bool
deriving DecidableEq, Repr

/-- Source `checkRmtCompliance` (lines 251–268): keep the received
entries strictly before the sent time; with none, report
`{compliant: false, found: false}`; otherwise sort descending by time
(modelled as ascending on the negated time value, which the stable sort
makes equivalent), take the closest-preceding entry, and compare the
gap in minutes against 60. -/
def checkRmtCompliance (sentEntry : SageEntry) (receivedEntries : List SageEntry) : RmtOutcome :=
  let eligible := receivedEntries.filter
    (fun r => r.date.getTime < sentEntry.date.getTime)
  match sortByKey (fun r => -r.date.getTime) eligible with
  | [] => { compliant := false, found := false }
  | latestReceived :: _ =>
    -- JS computes `diffMins = diffMs / (1000 * 60)` in binary floating
    -- point and tests `diffMins <= 60`; for the integral millisecond
    -- differences involved this equals the exact rational test, which
    -- for integers is `diffMs ≤ 60 * (1000 * 60)` (the 3 600 000 ms
    -- boundary is exactly representable).
    let diffMs : Int := sentEntry.date.getTime - latestReceived.date.getTime
    { compliant := decide (diffMs ≤ 60 * (1000 * 60)), found := true }

/-! ### Report grid -/

/-- The semantic style classes of `STYLES` (source lines 115–152); the
RGB/font payloads are a rendering concern.  `boldFont` is the inline
`{ font: { bold: true } }` of the Month/Year cell. -/
inductive Style where
  | header
  | title
  | cell
  | cellCenter
  | missing
  | success
  | warning
  | boldFont
deriving DecidableEq, Repr

/-- One styled worksheet cell, as written by `addCell(ws, r, c, v, s)`. -/
structure Cell where
  row : Nat
  col : Nat
  val : String
  style : Style
deriving DecidableEq, Repr

/-- A row of header cells starting at `col` (`hs.forEach((h, i) =>
addCell(ws, row, i, h, STYLES.header))`). -/
def headerCells (row col : Nat) : List String → List Cell
  | [] => []
  | h :: hs => { row := row, col := col, val := h, style := .header } :: headerCells row (col + 1) hs

/-- The RMT Received rows: source, date, time and a `CRW` signature
cell per entry, one row each. -/
def rmtReceivedCells (startRow : Nat) : List SageEntry → List Cell
  | [] => []
  | e :: es =>
    { row := startRow, col := 0, val := e.source, style := .cell } ::
    { row := startRow, col := 1, val := formatDateShort e.date, style := .cellCenter } ::
    { row := startRow, col := 2, val := formatTime e.date, style := .cellCenter } ::
    { row := startRow, col := 4, val := "CRW", style := .cell } ::
    rmtReceivedCells (startRow + 1) es

/-- The compliance tag text of one Sent RMT row. -/
def complianceText (compliance : RmtOutcome) : String :=
  if compliance.found then (if compliance.compliant then "Y" else "N (Over 1hr)")
  else "N (No RX)"

/-- The style of the compliance tag cell (the inline conditional at
source line 349; the `complianceStyle` binding at line 345 is dead
code there). -/
def complianceStyleOf (compliance : RmtOutcome) : Style :=
  if compliance.found && compliance.compliant then .success
  else if compliance.found then .missing
  else .warning

/-- The RMT Transmitted rows: date, time, compliance tag and `CRW`
per Sent RMT entry, one row each. -/
def rmtSentCells (rmtReceived : List SageEntry) (startRow : Nat) : List SageEntry → List Cell
  | [] => []
  | e :: es =>
    let compliance := checkRmtCompliance e rmtReceived
    { row := startRow, col := 0, val := formatDateShort e.date, style := .cellCenter } ::
    { row := startRow, col := 1, val := formatTime e.date, style := .cellCenter } ::
    { row := startRow, col := 2, val := complianceText compliance,
      style := complianceStyleOf compliance } ::
    { row := startRow, col := 4, val := "CRW", style := .cell } ::
    rmtSentCells rmtReceived (startRow + 1) es

/-- The `"WEEK OF\n<range>"` header cells of the RWT matrix, one per
week starting at column `col`. -/
def weekHeaderCells (row col : Nat) : List JSDate → List Cell
  | [] => []
  | w :: ws =>
    { row := row, col := col, val := "WEEK OF\n" ++ formatWeekRange w, style := .header } ::
    weekHeaderCells row (col + 1) ws

/-- The week cells of one matrix row: the first Received RWT entry of
this source inside `[weekStart, weekStart + 7 days)` as
`"<date>\n<time>"`, or the styled `MISSING` marker. -/
def weekCellsFor (rwtReceived : List SageEntry) (src : String) (row col : Nat) :
    List JSDate → List Cell
  | [] => []
  | w :: ws =>
    let weekEnd := w.addDays 7
    (match rwtReceived.find? (fun e => e.source == src &&
        w.getTime ≤ e.date.getTime && e.date.getTime < weekEnd.getTime) with
     | some entry =>
       { row := row, col := col,
         val := formatDateShort entry.date ++ "\n" ++ formatTime entry.date,
         style := .cellCenter }
     | none => { row := row, col := col, val := "MISSING", style := .missing }) ::
    weekCellsFor rwtReceived src row (col + 1) ws

/-- The matrix rows, one per source label. -/
def matrixCells (rwtReceived : List SageEntry) (weeks : List JSDate) (row : Nat) :
    List String → List Cell
  | [] => []
  | src :: rest =>
    ({ row := row, col := 0, val := src, style := .cell } ::
     weekCellsFor rwtReceived src row 1 weeks) ++
    matrixCells rwtReceived weeks (row + 1) rest

/-- The RWT Transmitted rows: week range, date, time and `CRW` per
Sent RWT entry. -/
def rwtSentCells (startRow : Nat) : List SageEntry → List Cell
  | [] => []
  | e :: es =>
    { row := startRow, col := 0, val := formatWeekRange (getWeekStartDate e.date),
      style := .cellCenter } ::
    { row := startRow, col := 1, val := formatDateShort e.date, style := .cellCenter } ::
    { row := startRow, col := 2, val := formatTime e.date, style := .cellCenter } ::
    { row := startRow, col := 3, val := "CRW", style := .cell } ::
    rwtSentCells (startRow + 1) es

/-- The weekly sign-off rows of the footer. -/
def signOffCells (startRow : Nat) : List JSDate → List Cell
  | [] => []
  | w :: ws =>
    { row := startRow, col := 0, val := formatWeekRange w, style := .cellCenter } ::
    { row := startRow, col := 1, val := "CRW", style := .cell } ::
    signOffCells (startRow + 1) ws

/-- English month names (`toLocaleString('default', { month: 'long' })`). -/
def monthNames : List String :=
  ["January", "February", "March", "April", "May", "June", "July",
   "August", "September", "October", "November", "December"]

/-- The title's month name from the 1-based numeric month string
(`new Date(parseInt(year), parseInt(month) - 1).toLocaleString(...)`);
the grouping driver only ever passes `"01"`..`"12"`. -/
def monthNameOf (m : Int) : String := monthNames.getD (m - 1).toNat ""

/-- The month's Received RMT entries, ascending by time (source line 311). -/
def rmtReceivedOf (entries : List SageEntry) : List SageEntry :=
  sortByKey (fun e => e.date.getTime)
    (entries.filter (fun e => e.event == "RMT" && e.type == "Received"))

/-- The month's Sent RMT entries, ascending by time (source line 335). -/
def rmtSentOf (entries : List SageEntry) : List SageEntry :=
  sortByKey (fun e => e.date.getTime)
    (entries.filter (fun e => e.event == "RMT" && e.type == "Sent"))

/-- The distinct week-start time values over all of the month's entries,
ascending (source lines 362–364: a `Set` of `getTime` values, then a
numeric sort). -/
def weekTimesOf (entries : List SageEntry) : List Int :=
  sortByKey (fun t => t)
    (dedupKeepFirst (entries.map (fun e => (getWeekStartDate e.date).getTime)))

/-- The week columns as `Date`s (`new Date(t)` per sorted time). -/
def sortedWeeksOf (entries : List SageEntry) : List JSDate :=
  (weekTimesOf entries).map jsDateFromTime

/-- The month's Received RWT entries in log order (source line 374). -/
def rwtReceivedOf (entries : List SageEntry) : List SageEntry :=
  entries.filter (fun e => e.event == "RWT" && e.type == "Received")

/-- The distinct canonical source labels of the Received RWT entries,
sorted lexicographically (source line 375). -/
def sourcesOf (entries : List SageEntry) : List String :=
  sortWithB jsStrLe (dedupKeepFirst ((rwtReceivedOf entries).map (fun e => e.source)))

/-- The month's Sent RWT entries, ascending by time (source line 417). -/
def rwtSentOf (entries : List SageEntry) : List SageEntry :=
  sortByKey (fun e => e.date.getTime)
    (entries.filter (fun e => e.event == "RWT" && e.type == "Sent"))

/-- Row of the "Explanation for RMT not received" prompt: the RMT
Received rows start at 5 and an empty section still emits one
placeholder row. -/
def afterRecvRow (entries : List SageEntry) : Nat :=
  5 + (if (rmtReceivedOf entries).isEmpty then 1 else (rmtReceivedOf entries).length)

/-- First row of the RMT Transmitted entry rows (two rows of headers
after a two-row gap). -/
def rmtSentStartRow (entries : List SageEntry) : Nat := afterRecvRow entries + 4

/-- Row of the "Explanation for RMT not transmitted" prompt. -/
def afterSentRow (entries : List SageEntry) : Nat :=
  rmtSentStartRow entries +
    (if (rmtSentOf entries).isEmpty then 1 else (rmtSentOf entries).length)

/-- First row of the RWT matrix body (section header, then the
"LP or NWS" header row). -/
def matrixStartRow (entries : List SageEntry) : Nat := afterSentRow entries + 4

/-- First row of the RWT Transmitted entry rows. -/
def rwtSentStartRow (entries : List SageEntry) : Nat :=
  matrixStartRow entries + (sourcesOf entries).length +
    (if (sourcesOf entries).isEmpty then 1 else 0) + 4

/-- First row of the weekly sign-off rows. -/
def signStartRow (entries : List SageEntry) : Nat :=
  rwtSentStartRow entries + (rwtSentOf entries).length + 7

/-- Source `generateMonthSheet` (lines 280–451) as the list of styled
cells written into the worksheet, in emission order, with the running
`currentRow` made explicit through the row-offset definitions above.
(`!cols`/`!ref` sizing metadata is a rendering concern and not part of
the cells.) -/
def generateMonthSheet (entries : List SageEntry) (year month : String) : List Cell :=
  let monthName := monthNameOf (strVal month)
  let rmtReceived := rmtReceivedOf entries
  let rmtSent := rmtSentOf entries
  let sortedWeeks := sortedWeeksOf entries
  let rwtReceived := rwtReceivedOf entries
  let sources := sourcesOf entries
  let rwtSent := rwtSentOf entries
  let rmtRecvRows :=
    if rmtReceived.isEmpty then [Cell.mk 5 0 "(No RMT Received)" .cell]
    else rmtReceivedCells 5 rmtReceived
  let afterRecv := afterRecvRow entries
  let sentStart := rmtSentStartRow entries
  let rmtSentRows :=
    if rmtSent.isEmpty then [Cell.mk sentStart 0 "(No RMT Sent)" .cell]
    else rmtSentCells rmtReceived sentStart rmtSent
  let afterSent := afterSentRow entries
  let matrixStart := matrixStartRow entries
  let matrixRows := matrixCells rwtReceived sortedWeeks matrixStart sources
  let noRwtRow :=
    if sources.isEmpty then
      [Cell.mk (matrixStart + sources.length) 0 "No RWT Received Data" .cell]
    else []
  let rwtSentStart := rwtSentStartRow entries
  let rwtSentRows := rwtSentCells rwtSentStart rwtSent
  let afterRwtSent := rwtSentStart + rwtSent.length
  let footerHdr := afterRwtSent + 5
  let signStart := signStartRow entries
  [Cell.mk 0 0 "Emergency Alert System Log" .title,
   Cell.mk 0 3 "Station:" .cell,
   Cell.mk 1 3 ("Month/Year: " ++ monthName ++ " " ++ year) .boldFont,
   Cell.mk 3 0 "Required Monthly Test (RMT) Received" .header]
  ++ headerCells 4 0 ["Received From", "Date", "Time", "", "Signature or Notes"]
  ++ rmtRecvRows
  ++ [Cell.mk afterRecv 0 "Explanation for RMT not received:" .cell,
      Cell.mk (afterRecv + 2) 0 "Required Monthly Test (RMT) Transmitted" .header]
  ++ headerCells (afterRecv + 3) 0
       ["Date", "Time Sent", "Within 1 Hour? Y/N", "", "Signature or Notes"]
  ++ rmtSentRows
  ++ [Cell.mk afterSent 0 "Explanation for RMT not transmitted:" .cell,
      Cell.mk (afterSent + 2) 0 "Required Weekly Test (RWT) Received" .header,
      Cell.mk (afterSent + 3) 0 "LP or NWS" .header]
  ++ weekHeaderCells (afterSent + 3) 1 sortedWeeks
  ++ matrixRows
  ++ noRwtRow
  ++ [Cell.mk (rwtSentStart - 2) 0 "Required Weekly Test (RWT) Transmitted" .header]
  ++ headerCells (rwtSentStart - 1) 0 ["WEEK OF", "DATE", "TIME", "SIGNATURE or NOTES"]
  ++ rwtSentRows
  ++ [Cell.mk afterRwtSent 0 "Explanation of RWT Failures:" .cell,
      Cell.mk (afterRwtSent + 2) 0 "Other Information:" .cell,
      Cell.mk footerHdr 0 "Weekly Log Review by Chief Operator or Designee" .header,
      Cell.mk (footerHdr + 1) 0 "WEEK OF" .header,
      Cell.mk (footerHdr + 1) 1 "SIGNATURE" .header]
  ++ signOffCells signStart sortedWeeks

/-! ### Output assembler -/

/-- The `"YYYY/MM"` month key of an entry (zero-padded month, source
lines 504–506). -/
def monthKey (e : SageEntry) : String :=
  toString e.date.getFullYear ++ "/" ++ jsPadStart (toString (e.date.getMonth + 1)) 2 '0'

/-- Summary statistics (`ProcessingStats` in `types.ts`). -/
structure ProcessingStats where
  totalRows : Nat
  filesCreated : Nat
  monthsFound : List String
deriving DecidableEq, Repr

/-- One generated month workbook: the grouping key, the worksheet name
`"<MM>-<YYYY>"`, the archive path, and the sheet cells. -/
structure MonthFile where
  key : String
  sheetName : String
  zipPath : String
  cells : List Cell
deriving DecidableEq, Repr

/-- The per-run output: the month files and the summary statistics
(the binary workbook/zip encodings are external collaborators). -/
structure ProcessingResult where
  files : List MonthFile
  stats : ProcessingStats
deriving DecidableEq, Repr

/-- Build the output from the classified entries: group by month key
(object-insertion order = first-appearance order), generate one sheet
per month, and collect the statistics (source lines 499–541). -/
def buildResult (allEntries : List SageEntry) : ProcessingResult :=
  let keys := dedupKeepFirst (allEntries.map monthKey)
  let files := keys.map (fun k =>
    let entries := allEntries.filter (fun e => monthKey e == k)
    let parts := jsSplit k '/'
    let year := parts.headD ""
    let month := (parts.get? 1).getD ""
    { key := k
      sheetName := month ++ "-" ++ year
      zipPath := year ++ "/" ++ month ++ "/Sage_Log_" ++ year ++ "-" ++ month ++ ".xlsx"
      cells := generateMonthSheet entries year month })
  { files := files
    stats := { totalRows := allEntries.length
               filesCreated := files.length
               monthsFound := sortWithB jsStrLe keys } }

/-- The processing core of `processXMLFile` (source lines 455–550),
starting from the decoded list of raw records (the `FileReader`/XML
decoding and the workbook/zip serialization are external
collaborators): fail the whole run when no records were found, else
classify every record — silently dropping the rejected ones — and
build the grouped result. -/
def processXMLFile (rows : List RawRow) : Except String ProcessingResult :=
  if rows.isEmpty then Except.error "No records found."
  else Except.ok (buildResult (rows.filterMap parseSageEntry))

/-! ### Shared concrete examples (used by witnesses) -/

/-- A Sent RMT entry at 2024-03-15 14:00:00. -/
def exSent : SageEntry :=
  { type := "Sent", event := "RMT",
    date := { year := 2024, month := 3, day := 15, hour := 14, minute := 0, second := 0 },
    source := "Station Log", details := "", originalSource := "Station" }

/-- A Received RMT entry at 2024-03-15 13:50:00. -/
def exRecv : SageEntry :=
  { type := "Received", event := "RMT",
    date := { year := 2024, month := 3, day := 15, hour := 13, minute := 50, second := 0 },
    source := "KBOI 670AM LP2+PEP Monitor 1", details := "", originalSource := "Monitor 1" }

/-- A raw record carrying both an RWT marker (in the zczc code) and an
RMT marker (in the details). -/
def exBothRow : RawRow :=
  { type := "Received", details := "Required Monthly Test Received on Monitor 2",
    zczc := "ZCZC-EAS-RWT-016027", date := "3/12/24 10:15:00" }

/-- A raw record with a valid direction and marker but an unparseable
date, and one with no marker at all. -/
def exBadDateRow : RawRow :=
  { type := "Sent", details := "", zczc := "ZCZC-EAS-RMT-016027", date := "not a date" }

def exGoodRow : RawRow :=
  { type := "Sent", details := "", zczc := "ZCZC-EAS-RMT-016027", date := "3/15/24 14:00:00" }

/-- A Received RWT entry at 2024-03-12 09:00:00 from Monitor 2. -/
def exRwtRecv : SageEntry :=
  { type := "Received", event := "RWT",
    date := { year := 2024, month := 3, day := 12, hour := 9, minute := 0, second := 0 },
    source := "KBSU 90.3FM LP1 Monitor 2", details := "", originalSource := "Monitor 2" }

/-- A Received RMT late on the last day of January and a Sent RMT ten
minutes into February (20-minute gap across the month boundary). -/
def exJanRecvRow : RawRow :=
  { type := "Received", details := "Required Monthly Test Received on Monitor 1",
    zczc := "", date := "1/31/24 23:50:00" }

def exFebSentRow : RawRow :=
  { type := "Sent", details := "", zczc := "ZCZC-EAS-RMT-0000000",
    date := "2/1/24 00:10:00" }

/-- The classified January receipt and February transmission of the
two rows above. -/
def exJanEntry : SageEntry :=
  { type := "Received", event := "RMT",
    date := { year := 2024, month := 1, day := 31, hour := 23, minute := 50, second := 0 },
    source := "KBOI 670AM LP2+PEP Monitor 1",
    details := "Required Monthly Test Received on Monitor 1",
    originalSource := "Monitor 1" }

def exFebEntry : SageEntry :=
  { type := "Sent", event := "RMT",
    date := { year := 2024, month := 2, day := 1, hour := 0, minute := 10, second := 0 },
    source := "Station Log", details := "", originalSource := "Station" }

/-- The claim's rendering of `formatShortDate`, stated from the spec's
words (zero-padded two-digit month and day fields), for comparison
with the source's `formatDateShort`. -/
def specZeroPaddedShortDate (d : JSDate) : String :=
  jsPadStart (toString (d.getMonth + 1)) 2 '0' ++ "/" ++
    jsPadStart (toString d.getDate) 2 '0' ++ "/" ++ toString d.getFullYear

/-- The concrete run and its first month file, for the C6 witness. -/
def exC6res : ProcessingResult :=
  buildResult (([exJanRecvRow, exFebSentRow] : List RawRow).filterMap parseSageEntry)

def exC6mf : MonthFile := exC6res.files.headD (MonthFile.mk "" "" "" [])

/-! ### Theorems -/

/-! ### Sorting lemmas -/
theorem length_insSorted {α β : Type} [LinearOrder β] (k : α → β) (x : α) (l : List α) :
    (insSorted k x l).length = l.length + 1 := by
  induction l with
  | nil => rfl
  | cons y ys ih =>
    unfold insSorted
    split
    · simp
    · simp [ih]

theorem length_sortByKey {α β : Type} [LinearOrder β] (k : α → β) (l : List α) :
    (sortByKey k l).length = l.length := by
  induction l with
  | nil => rfl
  | cons x xs ih =>
    show (insSorted k x (sortByKey k xs)).length = xs.length + 1
    rw [length_insSorted, ih]

theorem mem_insSorted {α β : Type} [LinearOrder β] (k : α → β) (x a : α) (l : List α) :
    a ∈ insSorted k x l ↔ a = x ∨ a ∈ l := by
  induction l with
  | nil => simp [insSorted]
  | cons y ys ih =>
    unfold insSorted
    split
    · simp only [List.mem_cons]
    · simp only [List.mem_cons, ih]
      tauto

theorem mem_sortByKey {α β : Type} [LinearOrder β] (k : α → β) (a : α) (l : List α) :
    a ∈ sortByKey k l ↔ a ∈ l := by
  induction l with
  | nil => simp [sortByKey]
  | cons x xs ih =>
    show a ∈ insSorted k x (sortByKey k xs) ↔ _
    rw [mem_insSorted]
    simp only [List.mem_cons, ih]

theorem pairwise_insSorted {α β : Type} [LinearOrder β] (k : α → β) (x : α) (l : List α)
    (h : l.Pairwise (fun a b => k a ≤ k b)) :
    (insSorted k x l).Pairwise (fun a b => k a ≤ k b) := by
  induction l with
  | nil => simp [insSorted]
  | cons y ys ih =>
    rw [List.pairwise_cons] at h
    unfold insSorted
    split
    case isTrue hle =>
      rw [List.pairwise_cons]
      refine ⟨?_, by rw [List.pairwise_cons]; exact h⟩
      intro z hz
      rcases List.mem_cons.mp hz with hz | hz
      · exact hz ▸ hle
      · exact le_trans hle (h.1 z hz)
    case isFalse hle =>
      rw [List.pairwise_cons]
      refine ⟨?_, ih h.2⟩
      intro z hz
      rcases (mem_insSorted k x z ys).mp hz with hz | hz
      · exact hz ▸ le_of_not_le hle
      · exact h.1 z hz

theorem pairwise_sortByKey {α β : Type} [LinearOrder β] (k : α → β) (l : List α) :
    (sortByKey k l).Pairwise (fun a b => k a ≤ k b) := by
  induction l with
  | nil => exact List.Pairwise.nil
  | cons x xs ih => exact pairwise_insSorted k x _ ih

theorem sortByKey_head_min {α β : Type} [LinearOrder β] (k : α → β) (l : List α)
    (b : α) (t : List α) (hbt : sortByKey k l = b :: t) :
    ∀ x ∈ l, k b ≤ k x := by
  intro x hx
  have hx2 : x ∈ b :: t := hbt ▸ (mem_sortByKey k x l).mpr hx
  rcases List.mem_cons.mp hx2 with hx2 | hx2
  · exact hx2 ▸ le_refl _
  · have hp := pairwise_sortByKey k l
    rw [hbt, List.pairwise_cons] at hp
    exact hp.1 x hx2

/-! ### Calendar lemmas -/
theorem dayFromYoe_le_range (doe : Int) (h0 : 0 ≤ doe) (h1 : doe ≤ 146096) :
    let e1 := doe / 366
    let yoe := if e1 < 399 ∧ dayFromYoe (e1 + 1) ≤ doe then e1 + 1 else e1
    0 ≤ yoe ∧ yoe ≤ 399 ∧ 0 ≤ doe - dayFromYoe yoe ∧ doe - dayFromYoe yoe ≤ 365 := by
  dsimp only
  unfold dayFromYoe
  split
  case isTrue h => omega
  case isFalse h => omega

theorem monthPart_range (doy : Int) (h0 : 0 ≤ doy) (h1 : doy ≤ 365) :
    0 ≤ (5 * doy + 2) / 153 ∧ (5 * doy + 2) / 153 ≤ 11 := by
  omega

theorem daysFromCivil_reassemble (era yoe mp dd : Int)
    (h0 : 0 ≤ yoe) (h1 : yoe ≤ 399) (hmp0 : 0 ≤ mp) (hmp1 : mp ≤ 11) :
    daysFromCivil (yoe + era * 400 + (if (if mp < 10 then mp + 3 else mp - 9) ≤ 2 then 1 else 0))
        (if mp < 10 then mp + 3 else mp - 9) dd
      = era * 146097 + (yoe * 365 + yoe / 4 - yoe / 100 + ((153 * mp + 2) / 5 + dd - 1)) - 719468 := by
  unfold daysFromCivil
  dsimp only
  by_cases hc : mp < 10
  · rw [if_pos hc]
    rw [if_neg (by omega : ¬ (mp + 3 ≤ 2))]
    rw [if_pos (by omega : mp + 3 > 2)]
    have e1 : (yoe + era * 400 + 0 - 0) / 400 = era := by omega
    rw [e1]
    have e2 : yoe + era * 400 + 0 - 0 - era * 400 = yoe := by ring
    rw [e2]
    have e3 : mp + 3 + -3 = mp := by ring
    rw [e3]
  · rw [if_neg hc]
    rw [if_pos (by omega : mp - 9 ≤ 2)]
    rw [if_neg (by omega : ¬ (mp - 9 > 2))]
    have e1 : (yoe + era * 400 + 1 - 1) / 400 = era := by omega
    rw [e1]
    have e2 : yoe + era * 400 + 1 - 1 - era * 400 = yoe := by ring
    rw [e2]
    have e3 : mp - 9 + 9 = mp := by ring
    rw [e3]

/-- Lemma: `daysFromCivil` is a left inverse of `civilFromDays`: decoding an
epoch day number to a civil date and re-encoding it is the identity. -/
theorem daysFromCivil_civilFromDays (z : Int) :
    daysFromCivil (civilFromDays z).1 (civilFromDays z).2.1 (civilFromDays z).2.2 = z := by
  have h0 : 0 ≤ (z + 719468) - (z + 719468) / 146097 * 146097 := by omega
  have h1 : (z + 719468) - (z + 719468) / 146097 * 146097 ≤ 146096 := by omega
  obtain ⟨a1, a2, a3, a4⟩ := dayFromYoe_le_range _ h0 h1
  obtain ⟨b1, b2⟩ := monthPart_range _ a3 a4
  unfold civilFromDays
  dsimp only
  rw [daysFromCivil_reassemble _ _ _ _ a1 a2 b1 b2]
  unfold dayFromYoe at a3 a4 ⊢
  omega

/-- The civil decoding always produces a month in 1..12 and a day in
1..31. -/
theorem civilFromDays_range (z : Int) :
    1 ≤ (civilFromDays z).2.1 ∧ (civilFromDays z).2.1 ≤ 12 ∧
    1 ≤ (civilFromDays z).2.2 ∧ (civilFromDays z).2.2 ≤ 31 := by
  have h0 : 0 ≤ (z + 719468) - (z + 719468) / 146097 * 146097 := by omega
  have h1 : (z + 719468) - (z + 719468) / 146097 * 146097 ≤ 146096 := by omega
  obtain ⟨a1, a2, a3, a4⟩ := dayFromYoe_le_range _ h0 h1
  unfold civilFromDays
  dsimp only
  unfold dayFromYoe at a3 a4 ⊢
  split <;> omega

example : civilFromDays 0 = (1970, 1, 1) := by decide

example : civilFromDays 19782 = (2024, 2, 29) := by decide

example : civilFromDays 19783 = (2024, 3, 1) := by decide

example : daysFromCivil 2000 1 1 = 10957 := by decide

example : civilFromDays 11016 = (2000, 2, 29) := by decide

example : civilFromDays (-1) = (1969, 12, 31) := by decide

/-! ### Claim theorems -/

/-- C5: if zero raw records are discoverable in the decoded input, the
whole run fails with the single terminal error `"No records found."`;
the `Except.error` result carries no month files and no statistics, so
no partial output is produced. -/
theorem claim_C5_empty_input_is_terminal_error :
    processXMLFile [] = Except.error "No records found." := rfl

/-- C1: `checkRmtCompliance` first restricts the received entries to
those strictly earlier than the sent entry's timestamp; if that
restriction is empty the outcome is `{found: false, compliant: false}`
(the spec's `{matched: false, withinWindow: false}`); otherwise there is a selected eligible
entry with the latest (closest-preceding) timestamp, the outcome
reports `found`, and it reports compliance exactly when the gap in
minutes to that entry is at most 60 (inclusive boundary). -/
theorem claim_C1_checkRmtCompliance_spec (sentEntry : SageEntry)
    (receivedEntries : List SageEntry) :
    (receivedEntries.filter (fun r => r.date.getTime < sentEntry.date.getTime) = [] →
      checkRmtCompliance sentEntry receivedEntries = { compliant := false, found := false }) ∧
    (receivedEntries.filter (fun r => r.date.getTime < sentEntry.date.getTime) ≠ [] →
      ∃ b ∈ receivedEntries.filter (fun r => r.date.getTime < sentEntry.date.getTime),
        (∀ r ∈ receivedEntries.filter (fun r => r.date.getTime < sentEntry.date.getTime),
          r.date.getTime ≤ b.date.getTime) ∧
        (checkRmtCompliance sentEntry receivedEntries).found = true ∧
        ((checkRmtCompliance sentEntry receivedEntries).compliant = true ↔
          ((sentEntry.date.getTime - b.date.getTime : Int) : ℚ) / (1000 * 60) ≤ 60)) := by
  constructor
  · intro h
    unfold checkRmtCompliance
    dsimp only
    rw [h]
    rfl
  · intro h
    have hne : sortByKey (fun r : SageEntry => -r.date.getTime)
        (receivedEntries.filter (fun r => r.date.getTime < sentEntry.date.getTime)) ≠ [] := by
      intro hcon
      apply h
      have hlen := length_sortByKey (fun r : SageEntry => -r.date.getTime)
        (receivedEntries.filter (fun r => r.date.getTime < sentEntry.date.getTime))
      rw [hcon] at hlen
      exact List.length_eq_zero.mp hlen.symm
    obtain ⟨b, t, hbt⟩ := List.exists_cons_of_ne_nil hne
    refine ⟨b, ?_, ?_, ?_, ?_⟩
    · exact (mem_sortByKey _ b _).mp (hbt ▸ List.mem_cons_self b t)
    · intro r hr
      have := sortByKey_head_min (fun r : SageEntry => -r.date.getTime) _ b t hbt r hr
      dsimp only at this
      omega
    · unfold checkRmtCompliance
      dsimp only
      rw [hbt]
    · unfold checkRmtCompliance
      dsimp only
      rw [hbt]
      rw [decide_eq_true_iff]
      rw [div_le_iff₀ (by norm_num : (0 : ℚ) < 1000 * 60)]
      constructor
      · intro hle
        exact_mod_cast hle
      · intro hq
        exact_mod_cast hq

/-- Witness for C1 at a concrete sent entry and a one-element received
list (gap 10 minutes, within the window). -/
theorem claim_C1_witness :
    [exRecv].filter (fun r => r.date.getTime < exSent.date.getTime) ≠ [] ∧
    (∃ b ∈ [exRecv].filter (fun r => r.date.getTime < exSent.date.getTime),
      (∀ r ∈ [exRecv].filter (fun r => r.date.getTime < exSent.date.getTime),
        r.date.getTime ≤ b.date.getTime) ∧
      (checkRmtCompliance exSent [exRecv]).found = true ∧
      ((checkRmtCompliance exSent [exRecv]).compliant = true ↔
        ((exSent.date.getTime - b.date.getTime : Int) : ℚ) / (1000 * 60) ≤ 60)) :=
  ⟨by decide, (claim_C1_checkRmtCompliance_spec exSent [exRecv]).2 (by decide)⟩

/-- C10: RWT markers take precedence over RMT markers — when both an
RWT signal and an RMT signal occur in a raw record, any entry that
`parseSageEntry` produces for it is classified RWT, never RMT. -/
theorem claim_C10_rwt_precedence (row : RawRow)
    (hrwt : jsIncludes row.zczc "-RWT-" = true ∨
      jsIncludes row.details "Required Weekly Test" = true)
    (hrmt : jsIncludes row.zczc "-RMT-" = true ∨
      jsIncludes row.details "Required Monthly Test" = true) :
    ∀ e : SageEntry, parseSageEntry row = some e → e.event = "RWT" := by
  intro e he
  have hev : eventOf row = "RWT" := by
    unfold eventOf
    rcases hrwt with h | h <;> simp [h]
  unfold parseSageEntry at he
  dsimp only at he
  rw [hev] at he
  rw [if_neg (by decide : ¬ (("RWT" : String) = ""))] at he
  split at he
  · exact Option.noConfusion he
  · rcases hd : parseSageDate row.date with _ | d
    · rw [hd] at he
      exact Option.noConfusion he
    · rw [hd] at he
      injection he with h
      subst h
      rfl

/-- Witness for C10: on a concrete record with both markers, the
classifier yields an RWT entry. -/
theorem claim_C10_witness :
    jsIncludes exBothRow.zczc "-RWT-" = true ∧
    jsIncludes exBothRow.details "Required Monthly Test" = true ∧
    (∀ e : SageEntry, parseSageEntry exBothRow = some e → e.event = "RWT") ∧
    (parseSageEntry exBothRow).isSome = true :=
  ⟨by decide, by decide,
   claim_C10_rwt_precedence exBothRow (Or.inl (by decide)) (Or.inr (by decide)),
   by decide⟩

/-- C4: a raw record whose direction is not exactly `Sent`/`Received`,
or in which no RWT/RMT marker occurs, or whose date string fails to
parse, is classified `none`; such a record is silently dropped — the
run does not abort (the raw-record list is nonempty, so no terminal
error fires) and the whole result, month groups and summary statistics
included, equals the result computed from the other records alone. -/
theorem claim_C4_rejected_records_are_dropped :
    (∀ row : RawRow,
      ((row.type ≠ "Sent" ∧ row.type ≠ "Received") ∨
       (jsIncludes row.zczc "-RWT-" = false ∧
        jsIncludes row.details "Required Weekly Test" = false ∧
        jsIncludes row.zczc "-RMT-" = false ∧
        jsIncludes row.details "Required Monthly Test" = false) ∨
       parseSageDate row.date = none) →
      parseSageEntry row = none) ∧
    (∀ (pre post : List RawRow) (row : RawRow), parseSageEntry row = none →
      processXMLFile (pre ++ row :: post) =
        Except.ok (buildResult ((pre ++ post).filterMap parseSageEntry))) := by
  constructor
  · intro row h
    unfold parseSageEntry
    dsimp only
    rcases h with h | h | h
    · rw [if_pos h]
    · have hev : eventOf row = "" := by
        unfold eventOf
        rw [h.1, h.2.1, h.2.2.1, h.2.2.2]
        rfl
      rw [hev]
      split
      · rfl
      · rw [if_pos rfl]
    · split
      · rfl
      · split
        · rfl
        · rw [h]
  · intro pre post row h
    unfold processXMLFile
    rw [if_neg (by simp : ¬ (pre ++ row :: post).isEmpty = true)]
    rw [List.filterMap_append, List.filterMap_cons, h, List.filterMap_append]

/-- Witness for C4: a concrete record with an unparseable date is
classified `none`, and inserting it into a run leaves the result the
run computes from the remaining records. -/
theorem claim_C4_witness :
    ((exBadDateRow.type ≠ "Sent" ∧ exBadDateRow.type ≠ "Received") ∨
     (jsIncludes exBadDateRow.zczc "-RWT-" = false ∧
      jsIncludes exBadDateRow.details "Required Weekly Test" = false ∧
      jsIncludes exBadDateRow.zczc "-RMT-" = false ∧
      jsIncludes exBadDateRow.details "Required Monthly Test" = false) ∨
     parseSageDate exBadDateRow.date = none) ∧
    parseSageEntry exBadDateRow = none ∧
    processXMLFile ([exGoodRow] ++ exBadDateRow :: []) =
      Except.ok (buildResult (([exGoodRow] ++ []).filterMap parseSageEntry)) := by
  have hbad : parseSageDate exBadDateRow.date = none := by decide
  refine ⟨Or.inr (Or.inr hbad), ?_, ?_⟩
  · exact (claim_C4_rejected_records_are_dropped).1 exBadDateRow (Or.inr (Or.inr hbad))
  · exact (claim_C4_rejected_records_are_dropped).2 [exGoodRow] [] exBadDateRow
      ((claim_C4_rejected_records_are_dropped).1 exBadDateRow (Or.inr (Or.inr hbad)))

/-- The compliance cell of the `i`-th Sent RMT row is among the cells
emitted by `rmtSentCells`. -/
theorem rmtSentCells_mem_compliance (received : List SageEntry) (l : List SageEntry)
    (start : Nat) (i : Nat) (hi : i < l.length) :
    { row := start + i, col := 2,
      val := complianceText (checkRmtCompliance (l.get ⟨i, hi⟩) received),
      style := complianceStyleOf (checkRmtCompliance (l.get ⟨i, hi⟩) received) : Cell }
      ∈ rmtSentCells received start l := by
  induction l generalizing start i with
  | nil => exact absurd hi (Nat.not_lt_zero i)
  | cons e es ih =>
    cases i with
    | zero =>
      unfold rmtSentCells
      dsimp only
      refine List.mem_cons.mpr (Or.inr (List.mem_cons.mpr (Or.inr (List.mem_cons.mpr
        (Or.inl ?_)))))
      simp [complianceText, complianceStyleOf]
    | succ j =>
      have hj : j < es.length := Nat.lt_of_succ_lt_succ hi
      unfold rmtSentCells
      dsimp only
      refine List.mem_cons.mpr (Or.inr (List.mem_cons.mpr (Or.inr (List.mem_cons.mpr
        (Or.inr (List.mem_cons.mpr (Or.inr ?_)))))))
      have := ih (start + 1) j hj
      have harr : start + 1 + j = start + (j + 1) := by omega
      rw [harr] at this
      exact this

/-- Every cell of the RMT Transmitted rows block lies in the finished
month grid. -/
theorem mem_sheet_of_mem_rmtSentBlock (entries : List SageEntry) (year month : String)
    (c : Cell)
    (h : c ∈ (if (rmtSentOf entries).isEmpty
        then [Cell.mk (rmtSentStartRow entries) 0 "(No RMT Sent)" .cell]
        else rmtSentCells (rmtReceivedOf entries) (rmtSentStartRow entries)
          (rmtSentOf entries))) :
    c ∈ generateMonthSheet entries year month := by
  unfold generateMonthSheet
  dsimp only
  simp only [List.mem_append]
  tauto

/-- C2: in the RMT Transmitted section, the Sent RMT rows are ordered
ascending by timestamp, and each row `i` carries exactly one of the
three compliance tags at column 2, determined by the matcher's outcome
against the month's Received RMT entries: `"Y"` with the success style,
`"N (Over 1hr)"` with the failure (`missing`) style, or `"N (No RX)"`
with the warning style. -/
theorem claim_C2_rmt_transmitted_tags (entries : List SageEntry) (year month : String) :
    List.Pairwise (fun a b : SageEntry => a.date.getTime ≤ b.date.getTime)
      (rmtSentOf entries) ∧
    ∀ (i : Nat) (hi : i < (rmtSentOf entries).length),
      ∃ c ∈ generateMonthSheet entries year month,
        c.row = rmtSentStartRow entries + i ∧ c.col = 2 ∧
        (((checkRmtCompliance ((rmtSentOf entries).get ⟨i, hi⟩) (rmtReceivedOf entries)).found
            = true ∧
          (checkRmtCompliance ((rmtSentOf entries).get ⟨i, hi⟩)
            (rmtReceivedOf entries)).compliant = true →
            c.val = "Y" ∧ c.style = .success) ∧
         ((checkRmtCompliance ((rmtSentOf entries).get ⟨i, hi⟩) (rmtReceivedOf entries)).found
            = true ∧
          (checkRmtCompliance ((rmtSentOf entries).get ⟨i, hi⟩)
            (rmtReceivedOf entries)).compliant = false →
            c.val = "N (Over 1hr)" ∧ c.style = .missing) ∧
         ((checkRmtCompliance ((rmtSentOf entries).get ⟨i, hi⟩) (rmtReceivedOf entries)).found
            = false →
            c.val = "N (No RX)" ∧ c.style = .warning)) := by
  constructor
  · unfold rmtSentOf
    exact pairwise_sortByKey (fun e : SageEntry => e.date.getTime) _
  · intro i hi
    have hne : (rmtSentOf entries).isEmpty = false := by
      cases hl : rmtSentOf entries with
      | nil => rw [hl] at hi; exact absurd hi (by simp)
      | cons a as => rfl
    refine ⟨_, mem_sheet_of_mem_rmtSentBlock entries year month _
      (by rw [hne]
          exact rmtSentCells_mem_compliance (rmtReceivedOf entries) (rmtSentOf entries)
            (rmtSentStartRow entries) i hi), rfl, rfl, ?_, ?_, ?_⟩
    · intro hfc
      unfold complianceText complianceStyleOf
      rw [hfc.1, hfc.2]
      exact ⟨by simp, by simp⟩
    · intro hfc
      unfold complianceText complianceStyleOf
      rw [hfc.1, hfc.2]
      exact ⟨by simp, by simp⟩
    · intro hf
      unfold complianceText complianceStyleOf
      rw [hf]
      exact ⟨by simp, by simp⟩

/-- Witness for C2: with one Received RMT (13:50) and one Sent RMT
(14:00) in March 2024, the first Sent RMT row exists and carries the
tag determined by the matcher. -/
theorem claim_C2_witness :
    0 < (rmtSentOf [exRecv, exSent]).length ∧
    (∃ c ∈ generateMonthSheet [exRecv, exSent] "2024" "03",
      c.row = rmtSentStartRow [exRecv, exSent] + 0 ∧ c.col = 2 ∧
      (((checkRmtCompliance ((rmtSentOf [exRecv, exSent]).get ⟨0, by decide⟩)
          (rmtReceivedOf [exRecv, exSent])).found = true ∧
        (checkRmtCompliance ((rmtSentOf [exRecv, exSent]).get ⟨0, by decide⟩)
          (rmtReceivedOf [exRecv, exSent])).compliant = true →
          c.val = "Y" ∧ c.style = .success) ∧
       ((checkRmtCompliance ((rmtSentOf [exRecv, exSent]).get ⟨0, by decide⟩)
          (rmtReceivedOf [exRecv, exSent])).found = true ∧
        (checkRmtCompliance ((rmtSentOf [exRecv, exSent]).get ⟨0, by decide⟩)
          (rmtReceivedOf [exRecv, exSent])).compliant = false →
          c.val = "N (Over 1hr)" ∧ c.style = .missing) ∧
       ((checkRmtCompliance ((rmtSentOf [exRecv, exSent]).get ⟨0, by decide⟩)
          (rmtReceivedOf [exRecv, exSent])).found = false →
          c.val = "N (No RX)" ∧ c.style = .warning))) :=
  ⟨by decide,
   (claim_C2_rmt_transmitted_tags [exRecv, exSent] "2024" "03").2 0 (by decide)⟩

/-- Cell `i` of one matrix row of `weekCellsFor` is present and is
either the single date+time of a Received RWT entry of that source in
that week, or the styled `MISSING` marker. -/
theorem weekCellsFor_mem (rwt : List SageEntry) (src : String) (row col : Nat)
    (ws : List JSDate) (i : Nat) (hi : i < ws.length) :
    ∃ c ∈ weekCellsFor rwt src row col ws, c.row = row ∧ c.col = col + i ∧
      ((c.val = "MISSING" ∧ c.style = .missing) ∨
       (∃ e ∈ rwt, e.source = src ∧
         (ws.get ⟨i, hi⟩).getTime ≤ e.date.getTime ∧
         e.date.getTime < ((ws.get ⟨i, hi⟩).addDays 7).getTime ∧
         c.val = formatDateShort e.date ++ "\n" ++ formatTime e.date ∧
         c.style = .cellCenter)) := by
  induction ws generalizing col i with
  | nil => exact absurd hi (Nat.not_lt_zero i)
  | cons w ws' ih =>
    cases i with
    | zero =>
      unfold weekCellsFor
      dsimp only
      rcases hf : rwt.find? (fun e => e.source == src &&
          decide (w.getTime ≤ e.date.getTime) &&
          decide (e.date.getTime < (w.addDays 7).getTime)) with _ | e
      · rw [hf]
        exact ⟨_, List.mem_cons_self _ _, rfl, rfl, Or.inl ⟨rfl, rfl⟩⟩
      · rw [hf]
        have hmem := List.mem_of_find?_eq_some hf
        have hp := List.find?_some hf
        simp only [Bool.and_eq_true, beq_iff_eq, decide_eq_true_eq] at hp
        exact ⟨_, List.mem_cons_self _ _, rfl, rfl,
          Or.inr ⟨e, hmem, hp.1.1, hp.1.2, hp.2, rfl, rfl⟩⟩
    | succ j =>
      have hj : j < ws'.length := Nat.lt_of_succ_lt_succ hi
      obtain ⟨c, hc, hr, hcol, hval⟩ := ih (col + 1) j hj
      refine ⟨c, ?_, hr, by omega, hval⟩
      unfold weekCellsFor
      dsimp only
      exact List.mem_cons.mpr (Or.inr hc)

/-- The matrix block emits, for source row `si` and week column `wi`,
a populated cell: a single date+time of a matching entry or the
`MISSING` marker. -/
theorem matrixCells_mem (rwt : List SageEntry) (weeks : List JSDate) (row : Nat)
    (srcs : List String) (si : Nat) (hsi : si < srcs.length)
    (wi : Nat) (hwi : wi < weeks.length) :
    ∃ c ∈ matrixCells rwt weeks row srcs, c.row = row + si ∧ c.col = 1 + wi ∧
      ((c.val = "MISSING" ∧ c.style = .missing) ∨
       (∃ e ∈ rwt, e.source = srcs.get ⟨si, hsi⟩ ∧
         (weeks.get ⟨wi, hwi⟩).getTime ≤ e.date.getTime ∧
         e.date.getTime < ((weeks.get ⟨wi, hwi⟩).addDays 7).getTime ∧
         c.val = formatDateShort e.date ++ "\n" ++ formatTime e.date ∧
         c.style = .cellCenter)) := by
  induction srcs generalizing row si with
  | nil => exact absurd hsi (Nat.not_lt_zero si)
  | cons src rest ih =>
    cases si with
    | zero =>
      obtain ⟨c, hc, hr, hcol, hval⟩ := weekCellsFor_mem rwt src row 1 weeks wi hwi
      refine ⟨c, ?_, by omega, hcol, hval⟩
      unfold matrixCells
      exact List.mem_append_left _ (List.mem_cons.mpr (Or.inr hc))
    | succ j =>
      have hj : j < rest.length := Nat.lt_of_succ_lt_succ hsi
      obtain ⟨c, hc, hr, hcol, hval⟩ := ih (row + 1) j hj
      refine ⟨c, ?_, by omega, hcol, hval⟩
      unfold matrixCells
      exact List.mem_append_right _ hc

/-- Every cell of the matrix block lies in the finished month grid. -/
theorem mem_sheet_of_mem_matrixBlock (entries : List SageEntry) (year month : String)
    (c : Cell)
    (h : c ∈ matrixCells (rwtReceivedOf entries) (sortedWeeksOf entries)
      (matrixStartRow entries) (sourcesOf entries)) :
    c ∈ generateMonthSheet entries year month := by
  unfold generateMonthSheet
  dsimp only
  simp only [List.mem_append]
  tauto

/-- C3: RWT matrix completeness — for every (source, week) pair of the
month, the matrix holds a populated cell that is either the single
date+time of a Received RWT entry of that source falling inside that
week bucket, or the styled `MISSING` marker; and when the month has
zero RWT-receiving sources, the single `"No RWT Received Data"` row is
emitted instead. -/
theorem claim_C3_rwt_matrix_completeness (entries : List SageEntry) (year month : String) :
    (∀ (si : Nat) (hsi : si < (sourcesOf entries).length)
       (wi : Nat) (hwi : wi < (sortedWeeksOf entries).length),
      ∃ c ∈ generateMonthSheet entries year month,
        c.row = matrixStartRow entries + si ∧ c.col = 1 + wi ∧
        ((c.val = "MISSING" ∧ c.style = .missing) ∨
         (∃ e ∈ rwtReceivedOf entries,
           e.source = (sourcesOf entries).get ⟨si, hsi⟩ ∧
           ((sortedWeeksOf entries).get ⟨wi, hwi⟩).getTime ≤ e.date.getTime ∧
           e.date.getTime < (((sortedWeeksOf entries).get ⟨wi, hwi⟩).addDays 7).getTime ∧
           c.val = formatDateShort e.date ++ "\n" ++ formatTime e.date ∧
           c.style = .cellCenter))) ∧
    ((sourcesOf entries).isEmpty = true →
      Cell.mk (matrixStartRow entries + (sourcesOf entries).length) 0
        "No RWT Received Data" .cell ∈ generateMonthSheet entries year month) := by
  constructor
  · intro si hsi wi hwi
    obtain ⟨c, hc, hr, hcol, hval⟩ := matrixCells_mem (rwtReceivedOf entries)
      (sortedWeeksOf entries) (matrixStartRow entries) (sourcesOf entries) si hsi wi hwi
    exact ⟨c, mem_sheet_of_mem_matrixBlock entries year month c hc, hr, hcol, hval⟩
  · intro h
    have hm : Cell.mk (matrixStartRow entries + (sourcesOf entries).length) 0
        "No RWT Received Data" .cell ∈
        (if (sourcesOf entries).isEmpty then
          [Cell.mk (matrixStartRow entries + (sourcesOf entries).length) 0
            "No RWT Received Data" .cell]
        else []) := by
      rw [if_pos h]
      exact List.mem_cons_self _ _
    unfold generateMonthSheet
    dsimp only
    simp only [List.mem_append]
    tauto

/-- Witness for C3: with one Received RWT entry the (0,0) matrix cell
exists and is populated; with no entries at all the
`"No RWT Received Data"` row is emitted. -/
theorem claim_C3_witness :
    0 < (sourcesOf [exRwtRecv]).length ∧
    0 < (sortedWeeksOf [exRwtRecv]).length ∧
    (∃ c ∈ generateMonthSheet [exRwtRecv] "2024" "03",
      c.row = matrixStartRow [exRwtRecv] + 0 ∧ c.col = 1 + 0 ∧
      ((c.val = "MISSING" ∧ c.style = .missing) ∨
       (∃ e ∈ rwtReceivedOf [exRwtRecv],
         e.source = (sourcesOf [exRwtRecv]).get ⟨0, by decide⟩ ∧
         ((sortedWeeksOf [exRwtRecv]).get ⟨0, by decide⟩).getTime ≤ e.date.getTime ∧
         e.date.getTime <
           (((sortedWeeksOf [exRwtRecv]).get ⟨0, by decide⟩).addDays 7).getTime ∧
         c.val = formatDateShort e.date ++ "\n" ++ formatTime e.date ∧
         c.style = .cellCenter))) ∧
    (sourcesOf ([] : List SageEntry)).isEmpty = true ∧
    Cell.mk (matrixStartRow ([] : List SageEntry) +
        (sourcesOf ([] : List SageEntry)).length) 0 "No RWT Received Data" .cell
      ∈ generateMonthSheet ([] : List SageEntry) "2024" "03" :=
  ⟨by decide, by decide,
   (claim_C3_rwt_matrix_completeness [exRwtRecv] "2024" "03").1 0 (by decide) 0 (by decide),
   by decide,
   (claim_C3_rwt_matrix_completeness ([] : List SageEntry) "2024" "03").2 (by decide)⟩

/-- C6: each month's grid is computed from exactly the entries of that
calendar-month group, so a Sent RMT's compliance tag sees only
same-month receipts; concretely, a receipt at Jan 31 23:50 followed by
a transmission at Feb 1 00:10 yields the `"N (No RX)"` warning cell in
the February sheet, even though the matcher run on the full log would
report a compliant 20-minute match. -/
theorem claim_C6_month_scoped_compliance :
    (∀ (rows : List RawRow) (res : ProcessingResult),
      processXMLFile rows = Except.ok res →
      ∀ mf ∈ res.files,
        mf.cells = generateMonthSheet
          ((rows.filterMap parseSageEntry).filter (fun e => monthKey e == mf.key))
          ((jsSplit mf.key '/').headD "") (((jsSplit mf.key '/').get? 1).getD "")) ∧
    (∃ res, processXMLFile [exJanRecvRow, exFebSentRow] = Except.ok res ∧
      res.stats.monthsFound = ["2024/01", "2024/02"] ∧
      (∃ mf ∈ res.files, mf.key = "2024/02" ∧
        Cell.mk 10 2 "N (No RX)" .warning ∈ mf.cells) ∧
      parseSageEntry exJanRecvRow = some exJanEntry ∧
      parseSageEntry exFebSentRow = some exFebEntry ∧
      checkRmtCompliance exFebEntry [exJanEntry] =
        { compliant := true, found := true }) := by
  constructor
  · intro rows res hres mf hmf
    unfold processXMLFile at hres
    split at hres
    · exact Except.noConfusion hres
    · injection hres with h
      subst h
      unfold buildResult at hmf
      dsimp only at hmf
      rw [List.mem_map] at hmf
      obtain ⟨k, hk, hfk⟩ := hmf
      subst hfk
      rfl
  · exact ⟨_, rfl, by decide, by decide, by decide, by decide, by decide⟩

/-- The week start of a date is its epoch day shifted back by the
weekday (the roundtrip through the civil decomposition collapses). -/
theorem getWeekStartDate_days (t : JSDate) :
    (getWeekStartDate t).days = t.days - t.getDay := by
  unfold getWeekStartDate JSDate.days
  dsimp only
  exact daysFromCivil_civilFromDays (t.days - t.getDay)

/-- C8: `getWeekStartDate` is idempotent; the result is a Sunday
(`getDay = 0`) at local midnight, lies at or before the input instant,
and is less than seven days before it — i.e. it is the most recent
Sunday 00:00:00 on or before the input. -/
theorem claim_C8_weekStart (t : JSDate) (hv : t.Valid) :
    getWeekStartDate (getWeekStartDate t) = getWeekStartDate t ∧
    (getWeekStartDate t).getDay = 0 ∧
    (getWeekStartDate t).hour = 0 ∧ (getWeekStartDate t).minute = 0 ∧
    (getWeekStartDate t).second = 0 ∧
    (getWeekStartDate t).getTime ≤ t.getTime ∧
    t.getTime - (getWeekStartDate t).getTime < 7 * 86400000 := by
  have hdays := getWeekStartDate_days t
  have hday0 : (getWeekStartDate t).getDay = 0 := by
    unfold JSDate.getDay
    rw [hdays]
    unfold JSDate.getDay
    omega
  have hrec : ∀ u : JSDate, getWeekStartDate u =
      { year := (civilFromDays (u.days - u.getDay)).1,
        month := (civilFromDays (u.days - u.getDay)).2.1,
        day := (civilFromDays (u.days - u.getDay)).2.2,
        hour := 0, minute := 0, second := 0 } := fun u => rfl
  refine ⟨?_, hday0, rfl, rfl, rfl, ?_, ?_⟩
  · rw [hrec (getWeekStartDate t)]
    rw [show (getWeekStartDate t).days - (getWeekStartDate t).getDay
        = t.days - t.getDay by rw [hday0, hdays]; ring]
    rw [hrec t]
  · unfold JSDate.getTime
    rw [hdays]
    have hwd : 0 ≤ t.getDay ∧ t.getDay < 7 := by
      unfold JSDate.getDay
      omega
    obtain ⟨_, _, _, _, h5, h6, h7, h8, h9, h10⟩ := hv
    have : (getWeekStartDate t).hour = 0 := rfl
    rw [this]
    have : (getWeekStartDate t).minute = 0 := rfl
    rw [this]
    have : (getWeekStartDate t).second = 0 := rfl
    rw [this]
    omega
  · unfold JSDate.getTime
    rw [hdays]
    have hwd : 0 ≤ t.getDay ∧ t.getDay < 7 := by
      unfold JSDate.getDay
      omega
    obtain ⟨_, _, _, _, h5, h6, h7, h8, h9, h10⟩ := hv
    have e1 : (getWeekStartDate t).hour = 0 := rfl
    have e2 : (getWeekStartDate t).minute = 0 := rfl
    have e3 : (getWeekStartDate t).second = 0 := rfl
    rw [e1, e2, e3]
    omega

/-- Witness for C8 at 2024-03-15 14:00:00 (a Friday; its week starts
Sunday 2024-03-10 00:00:00). -/
theorem claim_C8_witness :
    (JSDate.mk 2024 3 15 14 0 0).Valid ∧
    (getWeekStartDate (getWeekStartDate (JSDate.mk 2024 3 15 14 0 0))
        = getWeekStartDate (JSDate.mk 2024 3 15 14 0 0) ∧
      (getWeekStartDate (JSDate.mk 2024 3 15 14 0 0)).getDay = 0 ∧
      (getWeekStartDate (JSDate.mk 2024 3 15 14 0 0)).hour = 0 ∧
      (getWeekStartDate (JSDate.mk 2024 3 15 14 0 0)).minute = 0 ∧
      (getWeekStartDate (JSDate.mk 2024 3 15 14 0 0)).second = 0 ∧
      (getWeekStartDate (JSDate.mk 2024 3 15 14 0 0)).getTime
        ≤ (JSDate.mk 2024 3 15 14 0 0).getTime ∧
      (JSDate.mk 2024 3 15 14 0 0).getTime
        - (getWeekStartDate (JSDate.mk 2024 3 15 14 0 0)).getTime < 7 * 86400000) :=
  ⟨by decide, claim_C8_weekStart (JSDate.mk 2024 3 15 14 0 0) (by decide)⟩

/-- Counterexample to C9 as stated: on 2024-03-05 the source's
`formatDateShort` renders `"3/5/2024"`, not the zero-padded
`"03/05/2024"` the claim asserts. -/
theorem claim_C9_counterexample :
    formatDateShort (JSDate.mk 2024 3 5 14 30 0) = "3/5/2024" ∧
    specZeroPaddedShortDate (JSDate.mk 2024 3 5 14 30 0) = "03/05/2024" ∧
    formatDateShort (JSDate.mk 2024 3 5 14 30 0) ≠
      specZeroPaddedShortDate (JSDate.mk 2024 3 5 14 30 0) := by
  decide

theorem toStringInt_len_le2 (n : Int) (h0 : 0 ≤ n) (h1 : n ≤ 99) :
    (toString n).length ≤ 2 := by
  interval_cases n <;> decide

theorem jsPadStart_length (s : String) (n : Nat) (c : Char) (h : s.length ≤ n) :
    (jsPadStart s n c).length = n := by
  unfold jsPadStart
  split
  case isTrue h2 => omega
  case isFalse h2 =>
    rw [String.length_append]
    have : (String.mk (List.replicate (n - s.length) c)).length = n - s.length := by
      show (List.replicate (n - s.length) c).length = n - s.length
      exact List.length_replicate _ _
    omega

/-- C9 as amended: the display formatters are pure; `formatDateShort`
renders month, day and year unpadded (`M/D/YYYY`), while
`formatWeekRange` renders `"MM/DD - MM/DD"` with zero-padded two-digit
month and day fields on both ends of the 7-day bucket. -/
theorem claim_C9_formatters_amended (d : JSDate) (w : JSDate) (hw : w.Valid) :
    formatDateShort d =
      toString (d.getMonth + 1) ++ "/" ++ toString d.getDate ++ "/" ++
        toString d.getFullYear ∧
    ∃ a b c e : String, a.length = 2 ∧ b.length = 2 ∧ c.length = 2 ∧ e.length = 2 ∧
      formatWeekRange w = a ++ "/" ++ b ++ " - " ++ c ++ "/" ++ e := by
  obtain ⟨hm1, hm2, hd1, hd2, _⟩ := hw
  have hr := civilFromDays_range (w.days + 6)
  refine ⟨rfl,
    jsPadStart (toString (w.getMonth + 1)) 2 '0',
    jsPadStart (toString w.getDate) 2 '0',
    jsPadStart (toString ((w.addDays 6).getMonth + 1)) 2 '0',
    jsPadStart (toString (w.addDays 6).getDate) 2 '0',
    ?_, ?_, ?_, ?_, rfl⟩
  · exact jsPadStart_length _ 2 '0'
      (toStringInt_len_le2 _ (by unfold JSDate.getMonth; omega)
        (by unfold JSDate.getMonth; omega))
  · exact jsPadStart_length _ 2 '0'
      (toStringInt_len_le2 _ (by unfold JSDate.getDate; omega)
        (by
          unfold JSDate.getDate
          have : w.day ≤ daysInMonth w.year w.month := hd2
          unfold daysInMonth at this
          split at this <;> [skip; split at this] <;> [split at this; skip; skip] <;> omega))
  · have hmth : ((w.addDays 6).getMonth + 1) = (civilFromDays (w.days + 6)).2.1 := by
      unfold JSDate.addDays JSDate.getMonth
      dsimp only
      ring
    rw [hmth]
    exact jsPadStart_length _ 2 '0' (toStringInt_len_le2 _ (by omega) (by omega))
  · have hdy : (w.addDays 6).getDate = (civilFromDays (w.days + 6)).2.2 := by
      unfold JSDate.addDays JSDate.getDate
      dsimp only
    rw [hdy]
    exact jsPadStart_length _ 2 '0' (toStringInt_len_le2 _ (by omega) (by omega))

/-- Witness for the amended C9 at a concrete date and a concrete
week-start Sunday. -/
theorem claim_C9_witness :
    (JSDate.mk 2024 3 10 0 0 0).Valid ∧
    (formatDateShort (JSDate.mk 2024 3 5 14 30 0) =
      toString ((JSDate.mk 2024 3 5 14 30 0).getMonth + 1) ++ "/" ++
        toString (JSDate.mk 2024 3 5 14 30 0).getDate ++ "/" ++
        toString (JSDate.mk 2024 3 5 14 30 0).getFullYear ∧
    ∃ a b c e : String, a.length = 2 ∧ b.length = 2 ∧ c.length = 2 ∧ e.length = 2 ∧
      formatWeekRange (JSDate.mk 2024 3 10 0 0 0) =
        a ++ "/" ++ b ++ " - " ++ c ++ "/" ++ e) :=
  ⟨by decide,
   claim_C9_formatters_amended (JSDate.mk 2024 3 5 14 30 0)
     (JSDate.mk 2024 3 10 0 0 0) (by decide)⟩

/-! ### Digit-string lemmas (for the date-parser specification) -/
theorem jsPadStart_data (s : String) (n : Nat) (c : Char) :
    (jsPadStart s n c).data = List.replicate (n - s.length) c ++ s.data := by
  unfold jsPadStart
  split
  case isTrue h =>
    have h0 : n - s.length = 0 := by omega
    rw [h0]
    rfl
  case isFalse h =>
    rfl

theorem digitsVal_zeroes (k : Nat) (l : List Char) :
    digitsVal (List.replicate k '0' ++ l) = digitsVal l := by
  induction k with
  | zero => rfl
  | succ j ih =>
    show digitsVal ('0' :: (List.replicate j '0' ++ l)) = digitsVal l
    unfold digitsVal
    rw [List.foldl_cons]
    show List.foldl _ (10 * 0 + (('0'.toNat : Int) - 48)) _ = _
    have h0 : 10 * 0 + (('0'.toNat : Int) - 48) = 0 := by decide
    rw [h0]
    exact ih

theorem strVal_jsPadStart2 (s : String) :
    strVal (jsPadStart s 2 '0') = strVal s := by
  unfold strVal
  rw [jsPadStart_data]
  exact digitsVal_zeroes _ _

theorem length_jsPadStart2 (s : String) (h1 : 0 < s.length) (h2 : s.length ≤ 2) :
    (jsPadStart s 2 '0').length = 2 := jsPadStart_length s 2 '0' h2

theorem allDigits_length_pos (s : String) (h : allDigits s = true) : 0 < s.length := by
  unfold allDigits at h
  rw [Bool.and_eq_true] at h
  have := h.1
  cases hd : s.data with
  | nil => rw [hd] at this; exact absurd this (by decide)
  | cons a as =>
    show 0 < s.data.length
    rw [hd]
    simp

theorem allDigits_jsPadStart2 (s : String) (h : allDigits s = true) :
    allDigits (jsPadStart s 2 '0') = true := by
  unfold allDigits at h ⊢
  rw [Bool.and_eq_true] at h ⊢
  constructor
  · rw [jsPadStart_data]
    cases hd : s.data with
    | nil => rw [hd] at h; exact absurd h.1 (by decide)
    | cons a as => simp
  · rw [jsPadStart_data]
    rw [List.all_append]
    rw [Bool.and_eq_true]
    refine ⟨?_, h.2⟩
    rw [List.all_eq_true]
    intro c hc
    rw [List.eq_of_mem_replicate hc]
    decide

theorem length_append_str (a b : String) : (a ++ b).length = a.length + b.length :=
  String.length_append a b

theorem strVal_20 (yStr : String) (hyl : yStr.length = 2) :
    strVal ("20" ++ yStr) = 2000 + strVal yStr := by
  obtain ⟨c1, c2, hd⟩ := List.length_eq_two.mp (by
    show yStr.data.length = 2
    exact hyl)
  unfold strVal
  have hdata : ("20" ++ yStr).data = '2' :: '0' :: yStr.data := rfl
  rw [hdata, hd]
  unfold digitsVal
  simp only [List.foldl_cons, List.foldl_nil]
  have h2 : (('2'.toNat : Int)) = 50 := by decide
  have h0 : (('0'.toNat : Int)) = 48 := by decide
  rw [h2, h0]
  ring

theorem length_20 (yStr : String) (hyl : yStr.length = 2) : ("20" ++ yStr).length = 4 := by
  rw [length_append_str]
  rw [hyl]
  decide

theorem allDigits_20 (yStr : String) (hy : allDigits yStr = true) :
    allDigits ("20" ++ yStr) = true := by
  unfold allDigits at hy ⊢
  rw [Bool.and_eq_true] at hy ⊢
  have hdata : ("20" ++ yStr).data = '2' :: '0' :: yStr.data := rfl
  constructor
  · rw [hdata]
    simp
  · rw [hdata]
    simp only [List.all_cons, Bool.and_eq_true]
    exact ⟨by decide, by decide, hy.2⟩

/-- On the components `parseSageDate` composes — a `"20"`-prefixed
two-digit year and zero-padded month/day in calendar range — the ISO
`new Date` model succeeds, with the year read as `2000 + YY`. -/
theorem jsNewDateISO_valid (mStr dStr yStr timeStr : String)
    (hm : allDigits mStr = true) (hml : mStr.length ≤ 2)
    (hm1 : 1 ≤ strVal mStr) (hm2 : strVal mStr ≤ 12)
    (hd : allDigits dStr = true) (hdl : dStr.length ≤ 2)
    (hd1 : 1 ≤ strVal dStr)
    (hd2 : strVal dStr ≤ daysInMonth (2000 + strVal yStr) (strVal mStr))
    (hy : allDigits yStr = true) (hyl : yStr.length = 2)
    (hh mm ss : Int) (ht : parseTimeStr timeStr = some (hh, mm, ss)) :
    jsNewDateISO ("20" ++ yStr) (jsPadStart mStr 2 '0') (jsPadStart dStr 2 '0') timeStr
      = some { year := 2000 + strVal yStr, month := strVal mStr, day := strVal dStr,
               hour := hh, minute := mm, second := ss } := by
  unfold jsNewDateISO
  rw [if_pos ⟨length_20 yStr hyl, allDigits_20 yStr hy,
      length_jsPadStart2 mStr (allDigits_length_pos mStr hm) hml, allDigits_jsPadStart2 mStr hm,
      length_jsPadStart2 dStr (allDigits_length_pos dStr hd) hdl, allDigits_jsPadStart2 dStr hd⟩]
  rw [ht]
  dsimp only
  rw [strVal_20 yStr hyl, strVal_jsPadStart2 mStr, strVal_jsPadStart2 dStr]
  rw [if_pos ⟨hm1, hm2, hd1, hd2⟩]

/-- C7: for every date string of the form `"M/D/YY ..."` whose date
part splits into exactly three segments — numeric month and day in
calendar range and a two-digit numeric year segment YY — and whose
time part (when present and nonempty) is a well-formed time,
`parseSageDate` succeeds and the parsed year equals `2000 + YY`; a
missing (or empty) time part defaults to midnight; and a date part
that does not split into exactly three segments yields `none` rather
than an exception. -/
theorem claim_C7_parseSageDate_twoDigitYear :
    (∀ (s mStr dStr yStr : String),
      jsSplit ((jsSplit s ' ').headD "") '/' = [mStr, dStr, yStr] →
      allDigits mStr = true → mStr.length ≤ 2 →
      1 ≤ strVal mStr → strVal mStr ≤ 12 →
      allDigits dStr = true → dStr.length ≤ 2 →
      1 ≤ strVal dStr → strVal dStr ≤ daysInMonth (2000 + strVal yStr) (strVal mStr) →
      allDigits yStr = true → yStr.length = 2 →
      (∀ t, (jsSplit s ' ').get? 1 = some t → t ≠ "" → (parseTimeStr t).isSome = true) →
      ∃ dt, parseSageDate s = some dt ∧
        dt.year = 2000 + strVal yStr ∧ dt.month = strVal mStr ∧ dt.day = strVal dStr ∧
        (((jsSplit s ' ').get? 1 = none ∨ (jsSplit s ' ').get? 1 = some "") →
          dt.hour = 0 ∧ dt.minute = 0 ∧ dt.second = 0)) ∧
    (∀ s : String, (jsSplit ((jsSplit s ' ').headD "") '/').length ≠ 3 →
      parseSageDate s = none) := by
  constructor
  · intro s mStr dStr yStr h1 hm hml hm1 hm2 hd hdl hd1 hd2 hy hyl htimeOK
    have hdp : ((jsSplit s ' ').headD "") ≠ "" := by
      intro he
      rw [he] at h1
      have hl := congrArg List.length h1
      rw [show jsSplit "" '/' = [""] by decide] at hl
      simp at hl
    have hs : s ≠ "" := fun he => hdp (by rw [he]; decide)
    unfold parseSageDate
    rw [if_neg hs]
    dsimp only
    rw [if_neg hdp]
    rw [h1]
    dsimp only
    rw [if_pos hyl]
    rcases hT : (jsSplit s ' ').get? 1 with _ | t
    · have ht0 : parseTimeStr "00:00:00" = some (0, 0, 0) := by decide
      exact ⟨_, jsNewDateISO_valid mStr dStr yStr "00:00:00"
          hm hml hm1 hm2 hd hdl hd1 hd2 hy hyl 0 0 0 ht0,
        rfl, rfl, rfl, fun _ => ⟨rfl, rfl, rfl⟩⟩
    · dsimp only
      by_cases hte : t = ""
      · subst hte
        rw [if_pos rfl]
        have ht0 : parseTimeStr "00:00:00" = some (0, 0, 0) := by decide
        exact ⟨_, jsNewDateISO_valid mStr dStr yStr "00:00:00"
            hm hml hm1 hm2 hd hdl hd1 hd2 hy hyl 0 0 0 ht0,
          rfl, rfl, rfl, fun _ => ⟨rfl, rfl, rfl⟩⟩
      · rw [if_neg hte]
        have hsome := htimeOK t hT hte
        obtain ⟨⟨hh, mm, ss⟩, hps⟩ := Option.isSome_iff_exists.mp hsome
        refine ⟨_, jsNewDateISO_valid mStr dStr yStr t
            hm hml hm1 hm2 hd hdl hd1 hd2 hy hyl hh mm ss hps,
          rfl, rfl, rfl, ?_⟩
        intro hcon
        rcases hcon with hcon | hcon
        · exact Option.noConfusion hcon
        · injection hcon with he
          exact absurd he hte
  · intro s hlen
    unfold parseSageDate
    by_cases hs : s = ""
    · rw [if_pos hs]
    · rw [if_neg hs]
      dsimp only
      by_cases hdp : ((jsSplit s ' ').headD "") = ""
      · rw [if_pos hdp]
      · rw [if_neg hdp]
        cases hsp : jsSplit ((jsSplit s ' ').headD "") '/' with
        | nil => rfl
        | cons a l1 =>
          cases l1 with
          | nil => rfl
          | cons b l2 =>
            cases l2 with
            | nil => rfl
            | cons c l3 =>
              cases l3 with
              | nil => exact absurd (by rw [hsp]; rfl) hlen
              | cons dd l4 => rfl

/-- Witness for C7: `"3/15/24 14:00:00"` parses with year 2024, and
the two-segment `"3/15"` yields `none`. -/
theorem claim_C7_witness :
    (∃ dt, parseSageDate "3/15/24 14:00:00" = some dt ∧
      dt.year = 2000 + strVal "24" ∧ dt.month = strVal "3" ∧ dt.day = strVal "15" ∧
      (((jsSplit "3/15/24 14:00:00" ' ').get? 1 = none ∨
        (jsSplit "3/15/24 14:00:00" ' ').get? 1 = some "") →
        dt.hour = 0 ∧ dt.minute = 0 ∧ dt.second = 0)) ∧
    parseSageDate "3/15" = none :=
  ⟨claim_C7_parseSageDate_twoDigitYear.1 "3/15/24 14:00:00" "3" "15" "24"
      (by decide) (by decide) (by decide) (by decide) (by decide) (by decide) (by decide)
      (by decide) (by decide) (by decide) (by decide)
      (by
        intro t ht hne
        injection ht with h
        subst h
        decide),
   claim_C7_parseSageDate_twoDigitYear.2 "3/15" (by decide)⟩

/-- Witness for C6: on the concrete two-record run, the January file's
cells equal the sheet generated from the January group alone. -/
theorem claim_C6_witness :
    processXMLFile [exJanRecvRow, exFebSentRow] = Except.ok exC6res ∧
    exC6mf ∈ exC6res.files ∧
    exC6mf.cells = generateMonthSheet
      ((([exJanRecvRow, exFebSentRow] : List RawRow).filterMap parseSageEntry).filter
        (fun e => monthKey e == exC6mf.key))
      ((jsSplit exC6mf.key '/').headD "") (((jsSplit exC6mf.key '/').get? 1).getD "") :=
  ⟨rfl, by decide,
   claim_C6_month_scoped_compliance.1 [exJanRecvRow, exFebSentRow] exC6res rfl
     exC6mf (by decide)⟩
